import Mathlib

/-!
Verification of the MPU-6050 driver (`MyMPU.py`, `main.py`) against its
natural-language specification.

The driver is embedded shallowly:

* The hardware register file, the event trace of the I2C bus (reads, writes,
  session start) and of the timed waits, and the driver's cached accelerometer
  range are collected in one state record `MPUState`.
* `i2c.write_read(register, n)` and `i2c.write_bytes(register, value)` become
  `busRead` / `busWrite`, which record a trace event and act on the register
  file.  The bus is 8-bit, so a written byte is stored modulo 256.
* Methods of class `MyMPU` become functions `MPUState → ...`.  A method that
  can raise `ValueError` returns `Option Err × MPUState`: `(some e, s)` models
  an exception raised with the side effects performed so far kept in `s`,
  mirroring Python exception semantics.
* Machine integers are `Nat` / `Int`; sample scaling is exact arithmetic
  over `ℚ`; the pitch/roll trigonometry is over `ℝ`.
-/

/-- Errors the embedded code can signal.  `valueError` is Python's
`ValueError` (the spec's `InvalidArgument`); `zeroDivisionError` is Python's
`ZeroDivisionError` on float division by zero.  `domainError` is the error
name used by the spec for the pitch/roll domain check; it exists only so that
the spec's statement can be formalised — the source never raises it. -/
inductive Err where
  | valueError
  | zeroDivisionError
  | domainError
  deriving DecidableEq

/-- Events observable at the boundary between the driver and its
collaborators: opening the bus session (`i2c.I2C(...)` + `port.start()`),
a write-then-read transaction, a write transaction, and a blocking wait. -/
inductive Ev where
  | start : Ev
  | rd : ℕ → ℕ → Ev
  | wr : ℕ → ℕ → Ev
  | slp : ℕ → Ev
  deriving DecidableEq

/-- Driver-plus-hardware state: the device's register file, the driver's
cached accelerometer full-scale range (`self._accel_full_range`), and the
trace of boundary events, oldest first. -/
structure MPUState where
  regs : ℕ → ℕ
  accel_full_range : ℕ
  trace : List Ev

/-- The write-then-read bus transaction `port.write_read(register, n)`:
returns `n` consecutive register bytes starting at `register` (the device
auto-increments the register address) and records the transaction. -/
def busRead (s : MPUState) (register n : ℕ) : List ℕ × MPUState :=
  ((List.range n).map (fun i => s.regs (register + i)),
   { s with trace := s.trace ++ [Ev.rd register n] })

/-- The write bus transaction `port.write_bytes(register, value)`: stores the
byte on the device and records the transaction.  The bus carries one byte, so
the stored value is reduced modulo 256 (all values the driver actually sends
are below 256 already). -/
def busWrite (s : MPUState) (register value : ℕ) : MPUState :=
  { s with
    regs := fun r => if r = register then value % 256 else s.regs r,
    trace := s.trace ++ [Ev.wr register value] }

/-- Zerynth's global `sleep(ms)`: a blocking wait, recorded in the trace. -/
def sleep (s : MPUState) (ms : ℕ) : MPUState :=
  { s with trace := s.trace ++ [Ev.slp ms] }

-- Register map (`MyMPU.py` lines 8-14).
def REG_CONFIG : ℕ := 0x1A
def PWR_MGMT_1 : ℕ := 0x6B
def PWR_MGMT_2 : ℕ := 0x6C
def SIGNAL_PATH_RESET : ℕ := 0x68
def ACCEL_CONFIG : ℕ := 0x1C
def ACCEL_FIRST_REGISTER : ℕ := 0x3B
def ACCEL_XOUT_H : ℕ := 0x3B

/-- Embeds `MyMPU.ACCEL_SCALE` (line 20).  The source literally has `16834.0` as the
first entry; the constant is kept as written there. -/
def ACCEL_SCALE : List ℚ := [16834, 8192, 4096, 2048]

/-- Embeds `MyMPU._twos_comp_to_int` (lines 49-54): two's-complement decode of an
unsigned `bits`-wide value. -/
def twos_comp_to_int (val : ℕ) (bits : ℕ) : ℤ :=
  if val &&& (1 <<< (bits - 1)) ≠ 0 then (val : ℤ) - ((1 <<< bits : ℕ) : ℤ)
  else (val : ℤ)

/-- Embeds `MyMPU._reset_register` (lines 56-63): writes `0x00` outright. -/
def reset_register (s : MPUState) (register : ℕ) : MPUState :=
  busWrite s register 0x00

/-- Embeds `MyMPU._write_to_register` (lines 65-73), translated exactly as the
source reads: the current byte is fetched, the merged byte `value_read` is
computed, and then the source's final line `self.port.write_bytes(register,
value)` transmits `value` — not the merged `value_read`, which is unused. -/
def write_to_register (s : MPUState) (register mask value starting_bit : ℕ) :
    MPUState :=
  let value_read := ((busRead s register 1).1).headD 0
  let value_read := value_read &&& mask
  let value_read := value_read ||| (value <<< starting_bit)
  busWrite (busRead s register 1).2 register value

/-- Embeds `MyMPU.set_accelerometer_scale` (lines 75-102). -/
def set_accelerometer_scale (s : MPUState) (mode : ℕ) :
    Option Err × MPUState :=
  if ¬(mode = 0 ∨ mode = 1 ∨ mode = 2 ∨ mode = 3) then (some Err.valueError, s)
  else
    let s1 := write_to_register s ACCEL_CONFIG 0b11100111 mode 3
    (none, { s1 with accel_full_range := mode })

/-- Embeds `MyMPU.set_digital_low_pass_filter` (lines 139-175). -/
def set_digital_low_pass_filter (s : MPUState) (mode : ℕ) :
    Option Err × MPUState :=
  if ¬(mode = 0 ∨ mode = 1 ∨ mode = 2 ∨ mode = 3 ∨ mode = 4 ∨ mode = 5 ∨
       mode = 6 ∨ mode = 7) then (some Err.valueError, s)
  else (none, write_to_register s REG_CONFIG 0b11111000 mode 0)

/-- Embeds `MyMPU.set_external_sync` (lines 177-211). -/
def set_external_sync (s : MPUState) (mode : ℕ) : Option Err × MPUState :=
  if ¬(mode = 0 ∨ mode = 1 ∨ mode = 2 ∨ mode = 3 ∨ mode = 4 ∨ mode = 5 ∨
       mode = 6 ∨ mode = 7) then (some Err.valueError, s)
  else (none, write_to_register s REG_CONFIG 0b11000111 mode 3)

/-- Embeds `MyMPU.set_clock_source` (lines 213-247). -/
def set_clock_source (s : MPUState) (mode : ℕ) : Option Err × MPUState :=
  if ¬(mode = 0 ∨ mode = 1 ∨ mode = 2 ∨ mode = 3 ∨ mode = 4 ∨ mode = 5 ∨
       mode = 6 ∨ mode = 7) then (some Err.valueError, s)
  else (none, write_to_register s PWR_MGMT_1 0b11111000 mode 0)

/-- Embeds `MyMPU.set_sleep` (lines 249-265). -/
def set_sleep (s : MPUState) (mode : ℕ) : Option Err × MPUState :=
  if ¬(mode = 0 ∨ mode = 1) then (some Err.valueError, s)
  else (none, write_to_register s PWR_MGMT_1 0b10111111 mode 6)

/-- Embeds `MyMPU._set_temp_on_off` (lines 300-316). -/
def set_temp_on_off (s : MPUState) (mode : ℕ) : Option Err × MPUState :=
  if ¬(mode = 0 ∨ mode = 1) then (some Err.valueError, s)
  else (none, write_to_register s PWR_MGMT_1 0b11110111 mode 3)

/-- Embeds `MyMPU.set_temp_on` (lines 294-295). -/
def set_temp_on (s : MPUState) : Option Err × MPUState := set_temp_on_off s 0

/-- Embeds `MyMPU.set_temp_off` (lines 297-298). -/
def set_temp_off (s : MPUState) : Option Err × MPUState := set_temp_on_off s 1

/-- Embeds `MyMPU.set_cycle` (lines 318-334). -/
def set_cycle (s : MPUState) (mode : ℕ) : Option Err × MPUState :=
  if ¬(mode = 0 ∨ mode = 1) then (some Err.valueError, s)
  else (none, write_to_register s PWR_MGMT_1 0b11011111 mode 5)

/-- Embeds `MyMPU.set_gyro_axis_on_off` (lines 336-370). -/
def set_gyro_axis_on_off (s : MPUState) (mode : ℕ) : Option Err × MPUState :=
  if ¬(mode = 0 ∨ mode = 1 ∨ mode = 2 ∨ mode = 3 ∨ mode = 4 ∨ mode = 5 ∨
       mode = 6 ∨ mode = 7) then (some Err.valueError, s)
  else (none, write_to_register s PWR_MGMT_2 0b11111000 mode 0)

/-- Embeds `MyMPU._set_low_power_wake_up_frequency` (lines 372-398). -/
def set_low_power_wake_up_frequency (s : MPUState) (mode : ℕ) :
    Option Err × MPUState :=
  if ¬(mode = 0 ∨ mode = 1 ∨ mode = 2 ∨ mode = 3) then (some Err.valueError, s)
  else (none, write_to_register s PWR_MGMT_2 0b00111111 mode 6)

/-- Sequencing with Python exception propagation: if the first call raised,
the rest is skipped and the state reached so far is kept. -/
def seqE (r : Option Err × MPUState) (f : MPUState → Option Err × MPUState) :
    Option Err × MPUState :=
  match r with
  | (some e, s) => (some e, s)
  | (none, s) => f s

/-- Embeds `MyMPU._set_low_power_accelerometer_only_off_on` (lines 420-437). -/
def set_low_power_accelerometer_only_off_on (s : MPUState)
    (mode frequency : ℕ) : Option Err × MPUState :=
  if ¬(mode = 0 ∨ mode = 1) then (some Err.valueError, s)
  else if ¬(frequency = 0 ∨ frequency = 1 ∨ frequency = 2 ∨ frequency = 3) then
    (some Err.valueError, s)
  else if mode = 0 then
    seqE (set_cycle s 0) fun s =>
    seqE (set_sleep s 0) fun s =>
    seqE (set_temp_on s) fun s =>
    set_gyro_axis_on_off s 0
  else
    seqE (set_cycle s 1) fun s =>
    seqE (set_sleep s 0) fun s =>
    seqE (set_temp_off s) fun s =>
    seqE (set_gyro_axis_on_off s 7) fun s =>
    set_low_power_wake_up_frequency s frequency

/-- Embeds `MyMPU.set_low_power_accelerometer_only_off` (lines 400-402). -/
def set_low_power_accelerometer_only_off (s : MPUState) :
    Option Err × MPUState :=
  set_low_power_accelerometer_only_off_on s 0 0

/-- Embeds `MyMPU.set_low_power_accelerometer_only_on` (lines 404-418); the
`frequency` parameter defaults to `3` exactly as in the source. -/
def set_low_power_accelerometer_only_on (s : MPUState) (frequency : ℕ := 3) :
    Option Err × MPUState :=
  set_low_power_accelerometer_only_off_on s 1 frequency

/-- Embeds `MyMPU.reset_device` (lines 267-292): reset-bit write, 100 ms wait,
signal-path-reset write, 100 ms wait. -/
def reset_device (s : MPUState) : MPUState :=
  let mode := 1
  let s1 := write_to_register s PWR_MGMT_1 0b01111111 mode 7
  let s2 := sleep s1 100
  let s3 := write_to_register s2 SIGNAL_PATH_RESET 0b11111000 7 0
  sleep s3 100

/-- Embeds `MyMPU.get_accelerometer_values` (lines 104-125): reads the six sample
bytes in one transaction, reconstructs the three big-endian 16-bit values,
two's-complement-decodes them and scales by the cached range's table entry.
Scaling is exact arithmetic over `ℚ`.  The cached index is always in `0..3`
along every reachable path, so the list lookup uses default `0`. -/
def get_accelerometer_values (s : MPUState) : (ℚ × ℚ × ℚ) × MPUState :=
  let values_read := (busRead s ACCEL_FIRST_REGISTER 6).1
  let s1 := (busRead s ACCEL_FIRST_REGISTER 6).2
  let x := values_read.getD 0 0 <<< 8 ||| values_read.getD 1 0
  let y := values_read.getD 2 0 <<< 8 ||| values_read.getD 3 0
  let z := values_read.getD 4 0 <<< 8 ||| values_read.getD 5 0
  let xi := twos_comp_to_int x 16
  let yi := twos_comp_to_int y 16
  let zi := twos_comp_to_int z 16
  let accel_scale := ACCEL_SCALE.getD s.accel_full_range 0
  (((xi : ℚ) / accel_scale, (yi : ℚ) / accel_scale, (zi : ℚ) / accel_scale), s1)

/-- Embeds `MyMPU.configure_sensor_to_default` (lines 41-47). -/
def configure_sensor_to_default (s : MPUState) : Option Err × MPUState :=
  seqE (set_clock_source s 1) fun s =>
  seqE (set_accelerometer_scale s 1) fun s =>
  set_external_sync s 0

/-- Embeds `MyMPU.__init__` (lines 22-36): sets the cached range to 0, validates the
address, and only then opens the bus session (recorded as `Ev.start`) and
applies the default configuration.  `regs` is the device's register file at
construction time; the i2c bus name and the 400 kHz clock play no role in
the modelled behaviour. -/
def MyMPU_init (regs : ℕ → ℕ) (address : ℕ := 0x68) : Option Err × MPUState :=
  let s : MPUState := { regs := regs, accel_full_range := 0, trace := [] }
  if address ≠ 0x68 ∧ address ≠ 0x69 then (some Err.valueError, s)
  else
    let s := { s with trace := s.trace ++ [Ev.start] }
    configure_sensor_to_default s

/-- Embeds `Manager.__init__` (`main.py` lines 6-12): constructs the driver with the
default address and enables low-power mode with the default frequency. -/
def Manager_init (regs : ℕ → ℕ) : Option Err × MPUState :=
  seqE (MyMPU_init regs) fun s => set_low_power_accelerometer_only_on s

/-- The register writes contained in a trace, in order. -/
def writesOf (tr : List Ev) : List (ℕ × ℕ) :=
  tr.filterMap fun e =>
    match e with
    | Ev.wr r v => some (r, v)
    | _ => none

/-- An all-zero register file (the device's documented reset state). -/
def regs0 : ℕ → ℕ := fun _ => 0

/-- A fresh driver state over the all-zero register file. -/
def st0 : MPUState := { regs := regs0, accel_full_range := 0, trace := [] }

/-- A driver state whose registers all hold `0xFF`. -/
def stFF : MPUState := { regs := fun _ => 0xFF, accel_full_range := 0, trace := [] }

/-- Modelled from the spec: "the 16-bit unsigned encoding" of a signed
integer `n` (spec §8), i.e. `n` reduced modulo `2^16` into `0..65535`. -/
def encode16 (n : ℤ) : ℕ := (n % 65536).toNat

/-- For `v < 65536`, the masked sign-bit test of the source equals the
comparison with `32768`. -/
lemma land_sign_bit (v : ℕ) (hv : v < 65536) :
    (v &&& (1 <<< 15) ≠ 0) ↔ 32768 ≤ v := by
  have h15 : (1 <<< 15 : ℕ) = 2 ^ 15 := by decide
  have hp : (2 : ℕ) ^ 15 = 32768 := by norm_num
  rw [h15, Nat.and_two_pow, Nat.testBit_to_div_mod, hp]
  rcases Nat.lt_or_ge v 32768 with h | h
  · have h0 : v / 32768 = 0 := Nat.div_eq_of_lt h
    simp [h0]
    omega
  · have h1 : v / 32768 = 1 := by omega
    simp [h1]
    omega

/-- C3: two's-complement decode applied to the 16-bit unsigned encoding of
`n` returns `n` for every `n` in `[-32768, 32767]`; the decode subtracts
`2^16` exactly when bit 15 of the input is set. -/
theorem twos_comp_decode_encode (n : ℤ) (h1 : -32768 ≤ n) (h2 : n ≤ 32767) :
    twos_comp_to_int (encode16 n) 16 = n := by
  have hmod : (0 : ℤ) ≤ n % 65536 ∧ n % 65536 < 65536 := by
    constructor
    · exact Int.emod_nonneg n (by norm_num)
    · exact Int.emod_lt_of_pos n (by norm_num)
  have hcast : ((encode16 n : ℕ) : ℤ) = n % 65536 := by
    simp [encode16, Int.toNat_of_nonneg hmod.1]
  have hlt : encode16 n < 65536 := by
    have := hmod.2
    omega
  have hcase : n % 65536 = n ∨ n % 65536 = n + 65536 := by omega
  have h16 : ((1 <<< 16 : ℕ) : ℤ) = 65536 := by decide
  rw [twos_comp_to_int]
  rcases hcase with hc | hc
  · rw [if_neg]
    · omega
    · rw [land_sign_bit (encode16 n) hlt]
      omega
  · rw [if_pos]
    · omega
    · rw [land_sign_bit (encode16 n) hlt]
      omega

/-- Witness for C3 at `n = -1`: the encoding is `0xFFFF` and decodes back. -/
theorem twos_comp_decode_encode_witness :
    twos_comp_to_int (encode16 (-1)) 16 = -1 :=
  twos_comp_decode_encode (-1) (by decide) (by decide)

/-- C1 (code bug): with prior register byte `0xFF`, the read-modify-write
primitive issues the read and then transmits the byte `1` — the raw `value`
argument — although the merged byte `(0xFF &&& 0b11100111) ||| (1 <<< 3)`
the claim (and the function's own dead `value_read` computation) calls for
is `0xEF`. -/
theorem write_to_register_writes_raw_value :
    (write_to_register stFF ACCEL_CONFIG 0b11100111 1 3).regs ACCEL_CONFIG
      = 1 ∧
    (write_to_register stFF ACCEL_CONFIG 0b11100111 1 3).trace =
      [Ev.rd ACCEL_CONFIG 1, Ev.wr ACCEL_CONFIG 1] ∧
    ((0xFF &&& 0b11100111) ||| (1 <<< 3) : ℕ) = 0xEF ∧
    (1 : ℕ) ≠ 0xEF := by
  exact ⟨by decide, by decide, by decide, by decide⟩

/-- C4: every setter rejects a mode outside its enumerated domain with
`ValueError` while leaving the state — register file, cache and event
trace — completely unchanged (so zero bus transactions are issued), and
construction with an address other than the strap values 0x68/0x69 fails
with `ValueError` with an empty event trace (no bus session is opened). -/
theorem invalid_args_fail_before_bus :
    (∀ (s : MPUState) (m : ℕ), 3 < m →
        set_accelerometer_scale s m = (some Err.valueError, s)) ∧
    (∀ (s : MPUState) (m : ℕ), 7 < m →
        set_digital_low_pass_filter s m = (some Err.valueError, s)) ∧
    (∀ (s : MPUState) (m : ℕ), 7 < m →
        set_external_sync s m = (some Err.valueError, s)) ∧
    (∀ (s : MPUState) (m : ℕ), 7 < m →
        set_clock_source s m = (some Err.valueError, s)) ∧
    (∀ (s : MPUState) (m : ℕ), 1 < m →
        set_sleep s m = (some Err.valueError, s)) ∧
    (∀ (s : MPUState) (m : ℕ), 1 < m →
        set_temp_on_off s m = (some Err.valueError, s)) ∧
    (∀ (s : MPUState) (m : ℕ), 1 < m →
        set_cycle s m = (some Err.valueError, s)) ∧
    (∀ (s : MPUState) (m : ℕ), 7 < m →
        set_gyro_axis_on_off s m = (some Err.valueError, s)) ∧
    (∀ (s : MPUState) (m : ℕ), 3 < m →
        set_low_power_wake_up_frequency s m = (some Err.valueError, s)) ∧
    (∀ (s : MPUState) (f : ℕ), 3 < f →
        set_low_power_accelerometer_only_on s f = (some Err.valueError, s)) ∧
    (∀ (regs : ℕ → ℕ) (a : ℕ), a ≠ 0x68 → a ≠ 0x69 →
        MyMPU_init regs a = (some Err.valueError, { regs := regs, accel_full_range := 0, trace := [] })) := by
  refine ⟨?_, ?_, ?_, ?_, ?_, ?_, ?_, ?_, ?_, ?_, ?_⟩
  · intro s m hm
    unfold set_accelerometer_scale
    rw [if_pos (by omega)]
  · intro s m hm
    unfold set_digital_low_pass_filter
    rw [if_pos (by omega)]
  · intro s m hm
    unfold set_external_sync
    rw [if_pos (by omega)]
  · intro s m hm
    unfold set_clock_source
    rw [if_pos (by omega)]
  · intro s m hm
    unfold set_sleep
    rw [if_pos (by omega)]
  · intro s m hm
    unfold set_temp_on_off
    rw [if_pos (by omega)]
  · intro s m hm
    unfold set_cycle
    rw [if_pos (by omega)]
  · intro s m hm
    unfold set_gyro_axis_on_off
    rw [if_pos (by omega)]
  · intro s m hm
    unfold set_low_power_wake_up_frequency
    rw [if_pos (by omega)]
  · intro s f hf
    unfold set_low_power_accelerometer_only_on
      set_low_power_accelerometer_only_off_on
    rw [if_neg (by decide), if_pos (by omega)]
  · intro regs a h1 h2
    simp only [MyMPU_init]
    rw [if_pos ⟨h1, h2⟩]

/-- Witness for C4: a concrete out-of-domain mode and a concrete bad
address are both rejected without touching the state. -/
theorem invalid_args_fail_before_bus_witness :
    set_clock_source st0 9 = (some Err.valueError, st0) ∧
    MyMPU_init regs0 0x70 = (some Err.valueError, st0) :=
  ⟨invalid_args_fail_before_bus.2.2.2.1 st0 9 (by decide),
   invalid_args_fail_before_bus.2.2.2.2.2.2.2.2.2.2 regs0 0x70
     (by decide) (by decide)⟩

/-- One read-modify-write call appends exactly one read and one write
transaction on the target register to the trace. -/
lemma write_to_register_trace (s : MPUState) (r m v b : ℕ) :
    (write_to_register s r m v b).trace = s.trace ++ [Ev.rd r 1, Ev.wr r v] := by
  simp [write_to_register, busRead, busWrite]

/-- C7: low-power accelerometer-only ON with an in-domain frequency `f`
issues exactly the ordered transactions cycle=1, sleep=0, temp-off,
gyro-mask=7, wake-frequency=`f` (five writes, each preceded by the
read-modify-write read), and OFF issues exactly cycle=0, sleep=0, temp-on,
gyro-mask=0 (four writes). -/
theorem low_power_sequences (s : MPUState) :
    (∀ f : ℕ, f < 4 →
      (set_low_power_accelerometer_only_on s f).1 = none ∧
      (set_low_power_accelerometer_only_on s f).2.trace = s.trace ++
        [Ev.rd PWR_MGMT_1 1, Ev.wr PWR_MGMT_1 1,
         Ev.rd PWR_MGMT_1 1, Ev.wr PWR_MGMT_1 0,
         Ev.rd PWR_MGMT_1 1, Ev.wr PWR_MGMT_1 1,
         Ev.rd PWR_MGMT_2 1, Ev.wr PWR_MGMT_2 7,
         Ev.rd PWR_MGMT_2 1, Ev.wr PWR_MGMT_2 f] ∧
      writesOf (set_low_power_accelerometer_only_on s f).2.trace =
        writesOf s.trace ++
          [(PWR_MGMT_1, 1), (PWR_MGMT_1, 0), (PWR_MGMT_1, 1),
           (PWR_MGMT_2, 7), (PWR_MGMT_2, f)]) ∧
    ((set_low_power_accelerometer_only_off s).1 = none ∧
     (set_low_power_accelerometer_only_off s).2.trace = s.trace ++
        [Ev.rd PWR_MGMT_1 1, Ev.wr PWR_MGMT_1 0,
         Ev.rd PWR_MGMT_1 1, Ev.wr PWR_MGMT_1 0,
         Ev.rd PWR_MGMT_1 1, Ev.wr PWR_MGMT_1 0,
         Ev.rd PWR_MGMT_2 1, Ev.wr PWR_MGMT_2 0] ∧
     writesOf (set_low_power_accelerometer_only_off s).2.trace =
        writesOf s.trace ++
          [(PWR_MGMT_1, 0), (PWR_MGMT_1, 0), (PWR_MGMT_1, 0),
           (PWR_MGMT_2, 0)]) := by
  constructor
  · intro f hf
    interval_cases f <;>
      refine ⟨rfl, ?_, ?_⟩ <;>
        simp [set_low_power_accelerometer_only_on,
          set_low_power_accelerometer_only_off_on, seqE, set_cycle, set_sleep,
          set_temp_off, set_temp_on_off, set_gyro_axis_on_off,
          set_low_power_wake_up_frequency, write_to_register_trace, writesOf]
  · refine ⟨rfl, ?_, ?_⟩ <;>
      simp [set_low_power_accelerometer_only_off,
        set_low_power_accelerometer_only_off_on, seqE, set_cycle, set_sleep,
        set_temp_on, set_temp_on_off, set_gyro_axis_on_off,
        write_to_register_trace, writesOf]

/-- Witness for C7 at a fresh state and wake frequency 2. -/
theorem low_power_sequences_witness :
    (set_low_power_accelerometer_only_on st0 2).1 = none ∧
    (set_low_power_accelerometer_only_on st0 2).2.trace = st0.trace ++
      [Ev.rd PWR_MGMT_1 1, Ev.wr PWR_MGMT_1 1,
       Ev.rd PWR_MGMT_1 1, Ev.wr PWR_MGMT_1 0,
       Ev.rd PWR_MGMT_1 1, Ev.wr PWR_MGMT_1 1,
       Ev.rd PWR_MGMT_2 1, Ev.wr PWR_MGMT_2 7,
       Ev.rd PWR_MGMT_2 1, Ev.wr PWR_MGMT_2 2] ∧
    writesOf (set_low_power_accelerometer_only_on st0 2).2.trace =
      writesOf st0.trace ++
        [(PWR_MGMT_1, 1), (PWR_MGMT_1, 0), (PWR_MGMT_1, 1),
         (PWR_MGMT_2, 7), (PWR_MGMT_2, 2)] :=
  (low_power_sequences st0).1 2 (by decide)

/-- C8 (code bug): the reset protocol does perform, in order, a write to
power-mgmt-1, a 100 ms wait, a write to the signal-path-reset register whose
byte `0x07` has all three reset bits set, and a second 100 ms wait — but the
first write transmits the byte `0x01`, whose bit 7 (the device-reset bit) is
clear; the merged byte the claim calls for would have been `0x80`. -/
theorem reset_device_trace_and_reset_bit :
    (reset_device st0).trace =
      [Ev.rd PWR_MGMT_1 1, Ev.wr PWR_MGMT_1 1, Ev.slp 100,
       Ev.rd SIGNAL_PATH_RESET 1, Ev.wr SIGNAL_PATH_RESET 7, Ev.slp 100] ∧
    Nat.testBit 1 7 = false ∧
    ((0 &&& 0b01111111) ||| (1 <<< 7) : ℕ) = 0x80 ∧
    Nat.testBit 0x80 7 = true ∧
    Nat.testBit 7 0 = true ∧ Nat.testBit 7 1 = true ∧
    Nat.testBit 7 2 = true := by
  exact ⟨by decide, by decide, by decide, by decide, by decide, by decide,
    by decide⟩

/-- C9 (code bug): after a successful `set_accelerometer_scale(1)` the
cached index is 1, the single byte written to the accel-config register is
`0x01`, and that byte's range field (bits 3-4) is `0`, not the cached `1` —
the cache matches the `value` argument of the write, not the range field of
the byte that actually reached the hardware. -/
theorem accel_cache_vs_written_field :
    (set_accelerometer_scale st0 1).1 = none ∧
    (set_accelerometer_scale st0 1).2.accel_full_range = 1 ∧
    (set_accelerometer_scale st0 1).2.regs ACCEL_CONFIG = 1 ∧
    writesOf (set_accelerometer_scale st0 1).2.trace = [(ACCEL_CONFIG, 1)] ∧
    ((1 >>> 3) &&& 0b11 : ℕ) = 0 ∧
    (0 : ℕ) ≠ 1 := by
  exact ⟨by decide, by decide, by decide, by decide, by decide, by decide⟩

/-- A fresh driver state holding the raw sample bytes
`[0x10, 0x00, 0x00, 0x00, 0x20, 0x00]` at the accelerometer data registers. -/
def stSample : MPUState := { regs := fun r => if r = 0x3B then 0x10 else if r = 0x3F then 0x20 else 0, accel_full_range := 0, trace := [] }

/-- C2: after a successful `set_accelerometer_scale(i)` with `i` in `0..3`,
`get_accelerometer_values` returns, on each axis, the two's-complement
decode of that axis's big-endian byte pair divided by `ACCEL_SCALE[i]`;
with range index 1 and raw bytes `[0x10,0,0,0,0x20,0]` the result is
`x = 1/2 g, y = 0 g, z = 1 g`. -/
theorem accel_scale_then_get_values :
    (∀ (s : MPUState) (i : ℕ), i < 4 →
      (set_accelerometer_scale s i).1 = none ∧
      (get_accelerometer_values (set_accelerometer_scale s i).2).1 =
        ((twos_comp_to_int (s.regs 0x3B <<< 8 ||| s.regs 0x3C) 16 : ℚ) /
           ACCEL_SCALE.getD i 0,
         (twos_comp_to_int (s.regs 0x3D <<< 8 ||| s.regs 0x3E) 16 : ℚ) /
           ACCEL_SCALE.getD i 0,
         (twos_comp_to_int (s.regs 0x3F <<< 8 ||| s.regs 0x40) 16 : ℚ) /
           ACCEL_SCALE.getD i 0)) ∧
    ((set_accelerometer_scale stSample 1).1 = none ∧
     (get_accelerometer_values (set_accelerometer_scale stSample 1).2).1 =
       (1 / 2, 0, 1)) := by
  constructor
  · intro s i hi
    interval_cases i <;> exact ⟨rfl, rfl⟩
  · refine ⟨by decide, ?_⟩
    show ((((4096 : ℤ) : ℚ)) / 8192, (((0 : ℤ) : ℚ)) / 8192,
      (((8192 : ℤ) : ℚ)) / 8192) = (1 / 2, 0, 1)
    norm_num

/-- Witness for C2 at the all-zero register file and range index 2. -/
theorem accel_scale_then_get_values_witness :
    (set_accelerometer_scale st0 2).1 = none ∧
    (get_accelerometer_values (set_accelerometer_scale st0 2).2).1 =
      ((twos_comp_to_int (st0.regs 0x3B <<< 8 ||| st0.regs 0x3C) 16 : ℚ) /
         ACCEL_SCALE.getD 2 0,
       (twos_comp_to_int (st0.regs 0x3D <<< 8 ||| st0.regs 0x3E) 16 : ℚ) /
         ACCEL_SCALE.getD 2 0,
       (twos_comp_to_int (st0.regs 0x3F <<< 8 ||| st0.regs 0x40) 16 : ℚ) /
         ACCEL_SCALE.getD 2 0) :=
  accel_scale_then_get_values.1 st0 2 (by decide)

/-- Python's `int()` applied to a float: truncation toward zero. -/
noncomputable def int_trunc (r : ℝ) : ℤ := if r < 0 then ⌈r⌉ else ⌊r⌋

/-- The pure pitch/roll computation of `MyMPU.get_pitch_and_roll`
(lines 131-137) on a Physical Sample `(x, y, z)`.  Python's float division
raises `ZeroDivisionError` when the denominator is `0.0`; the guards model
exactly that.  (In the source the roll denominator is only reached after the
pitch expression, but the pitch expression is pure, so hoisting the roll
guard is observationally identical.)  The source multiplies by `180 / 3.14`,
with the literal `3.14`, not `math.pi`. -/
noncomputable def pitch_and_roll_of (x y z : ℝ) : Except Err (ℤ × ℤ) :=
  if Real.sqrt (y * y + z * z) = 0 then Except.error Err.zeroDivisionError
  else if Real.sqrt (x * x + z * z) = 0 then Except.error Err.zeroDivisionError
  else Except.ok
    (int_trunc (Real.arctan (x / Real.sqrt (y * y + z * z)) * 180 / 3.14),
     int_trunc (Real.arctan (y / Real.sqrt (x * x + z * z)) * 180 / 3.14))

/-- Embeds `MyMPU.get_pitch_and_roll` (lines 127-137): fetch a sample, then the
pure computation above. -/
noncomputable def get_pitch_and_roll (s : MPUState) :
    Except Err (ℤ × ℤ) × MPUState :=
  let acc := (get_accelerometer_values s).1
  let s1 := (get_accelerometer_values s).2
  (pitch_and_roll_of (acc.1 : ℝ) (acc.2.1 : ℝ) (acc.2.2 : ℝ), s1)

/-- Modelled from the spec: the pitch formula of §4.5,
`atan(x / sqrt(y² + z²)) * 180/π` truncated to integer — with the exact
constant `π`, as the spec and claim C5 write it. -/
noncomputable def specPitch (x y z : ℝ) : ℤ :=
  int_trunc (Real.arctan (x / Real.sqrt (y * y + z * z)) * 180 / Real.pi)

/-- C5 counterexample: at the Physical Sample
`(tan(43.99°), 0, 1)` — written with the exact angle `4399·π/18000` — the
code's pitch (which multiplies by `180/3.14`) is `44`, while the claimed
formula with `180/π` gives `43`. -/
theorem pitch_pi_vs_314_counterexample :
    pitch_and_roll_of (Real.tan (4399 * Real.pi / 18000)) 0 1 =
      Except.ok (44, 0) ∧
    specPitch (Real.tan (4399 * Real.pi / 18000)) 0 1 = 43 ∧
    (44 : ℤ) ≠ 43 := by
  have hpi6 := Real.pi_gt_d6
  have hpi2 := Real.pi_lt_d2
  have hpos : (0 : ℝ) < Real.pi := Real.pi_pos
  set t : ℝ := Real.tan (4399 * Real.pi / 18000) with ht
  have hθ1 : -(Real.pi / 2) < 4399 * Real.pi / 18000 := by nlinarith
  have hθ2 : 4399 * Real.pi / 18000 < Real.pi / 2 := by nlinarith
  have htan : Real.arctan t = 4399 * Real.pi / 18000 := by
    rw [ht]
    exact Real.arctan_tan hθ1 hθ2
  have hsq : Real.sqrt ((0 : ℝ) * 0 + 1 * 1) = 1 := by norm_num
  have hsq2 : Real.sqrt (t * t + 1 * 1) ≠ 0 := by
    rw [Real.sqrt_ne_zero']
    nlinarith [mul_self_nonneg t]
  have hval : 4399 * Real.pi / 18000 * 180 / 3.14 = 4399 * Real.pi / 314 := by
    norm_num
    ring
  have hb1 : (44 : ℝ) ≤ 4399 * Real.pi / 314 := by nlinarith
  have hb2 : 4399 * Real.pi / 314 < 45 := by nlinarith
  have hnn : ¬(4399 * Real.pi / 314 < (0 : ℝ)) := by
    push_neg
    positivity
  have hfloor : ⌊(4399 * Real.pi / 314 : ℝ)⌋ = 44 := by
    rw [Int.floor_eq_iff]
    constructor
    · exact_mod_cast hb1
    · push_cast
      linarith
  have hpitch : int_trunc (Real.arctan (t / Real.sqrt ((0 : ℝ) * 0 + 1 * 1)) *
      180 / 3.14) = 44 := by
    rw [hsq, div_one, htan, hval, int_trunc, if_neg hnn, hfloor]
  have hroll : int_trunc (Real.arctan ((0 : ℝ) / Real.sqrt (t * t + 1 * 1)) *
      180 / 3.14) = 0 := by
    rw [zero_div, Real.arctan_zero, zero_mul, zero_div, int_trunc]
    norm_num
  refine ⟨?_, ?_, by decide⟩
  · rw [pitch_and_roll_of]
    rw [if_neg (by rw [hsq]; exact one_ne_zero), if_neg hsq2, hpitch, hroll]
  · have hval2 : 4399 * Real.pi / 18000 * 180 / Real.pi = 4399 / 100 := by
      field_simp
      ring
    have hfloor2 : ⌊(4399 / 100 : ℝ)⌋ = 43 := by
      rw [Int.floor_eq_iff]
      constructor <;> norm_num
    rw [specPitch, hsq, div_one, htan, hval2, int_trunc, if_neg (by norm_num),
      hfloor2]

/-- C5 amended: for every Physical Sample with both denominators nonzero,
the computation returns
`pitch = int(atan(x / sqrt(y²+z²)) * 180 / 3.14)` and
`roll = int(atan(y / sqrt(x²+z²)) * 180 / 3.14)` — the conversion constant
is the literal `3.14`, not `π` — and the sample `(0, 0, 1)` yields
`pitch = 0, roll = 0`. -/
theorem pitch_roll_formula_and_scenario :
    (∀ x y z : ℝ, Real.sqrt (y * y + z * z) ≠ 0 →
      Real.sqrt (x * x + z * z) ≠ 0 →
      pitch_and_roll_of x y z = Except.ok
        (int_trunc (Real.arctan (x / Real.sqrt (y * y + z * z)) * 180 / 3.14),
         int_trunc (Real.arctan (y / Real.sqrt (x * x + z * z)) * 180 / 3.14))) ∧
    pitch_and_roll_of 0 0 1 = Except.ok (0, 0) := by
  have hform : ∀ x y z : ℝ, Real.sqrt (y * y + z * z) ≠ 0 →
      Real.sqrt (x * x + z * z) ≠ 0 →
      pitch_and_roll_of x y z = Except.ok
        (int_trunc (Real.arctan (x / Real.sqrt (y * y + z * z)) * 180 / 3.14),
         int_trunc (Real.arctan (y / Real.sqrt (x * x + z * z)) * 180 / 3.14)) := by
    intro x y z h1 h2
    rw [pitch_and_roll_of, if_neg h1, if_neg h2]
  refine ⟨hform, ?_⟩
  have hsq : Real.sqrt ((0 : ℝ) * 0 + 1 * 1) = 1 := by norm_num
  rw [hform 0 0 1 (by rw [hsq]; exact one_ne_zero) (by rw [hsq]; exact one_ne_zero)]
  rw [hsq, div_one, Real.arctan_zero, zero_mul, zero_div, int_trunc]
  norm_num

/-- Witness for C5's amended formula at the sample `(0, 0, 1)`. -/
theorem pitch_roll_formula_and_scenario_witness :
    pitch_and_roll_of 0 0 1 = Except.ok
      (int_trunc (Real.arctan (0 / Real.sqrt ((0 : ℝ) * 0 + 1 * 1)) * 180 / 3.14),
       int_trunc (Real.arctan (0 / Real.sqrt ((0 : ℝ) * 0 + 1 * 1)) * 180 / 3.14)) :=
  pitch_roll_formula_and_scenario.1 0 0 1 (by norm_num) (by norm_num)

/-- C6 counterexample: at the Physical Sample `(1, 0, 0)` the pitch
denominator is zero and the computation fails with the propagated division
fault `ZeroDivisionError` — which is not the spec's `DomainError` — and no
roll value is produced. -/
theorem pitch_zero_denominator_counterexample :
    pitch_and_roll_of 1 0 0 = Except.error Err.zeroDivisionError ∧
    Err.zeroDivisionError ≠ Err.domainError := by
  refine ⟨?_, by decide⟩
  rw [pitch_and_roll_of, if_pos (by norm_num)]

/-- C6 amended: whenever the two axes other than the one being estimated
are both zero, the computation fails by raising the division fault
(`ZeroDivisionError`), not a `DomainError`: with `y = z = 0` it fails at the
pitch step; with `x = z = 0` it fails no later than the roll step. -/
theorem zero_denominator_division_fault (x y z : ℝ)
    (h : (y = 0 ∧ z = 0) ∨ (x = 0 ∧ z = 0)) :
    pitch_and_roll_of x y z = Except.error Err.zeroDivisionError := by
  rcases h with ⟨hy, hz⟩ | ⟨hx, hz⟩
  · subst hy
    subst hz
    rw [pitch_and_roll_of, if_pos (by norm_num)]
  · subst hx
    subst hz
    by_cases hs : Real.sqrt (y * y + 0 * 0) = 0
    · rw [pitch_and_roll_of, if_pos hs]
    · rw [pitch_and_roll_of, if_neg hs, if_pos (by norm_num)]

/-- Witness for C6's amended claim at the sample `(5, 0, 0)`. -/
theorem zero_denominator_division_fault_witness :
    pitch_and_roll_of 5 0 0 = Except.error Err.zeroDivisionError :=
  zero_denominator_division_fault 5 0 0 (Or.inl ⟨rfl, rfl⟩)

/-- C10: `set_low_power_accelerometer_only_on` called without a frequency
argument is the call with frequency 3 (the source's default), and the
sampling loop's `Manager.__init__` — which calls it without the argument —
ends its transaction sequence with the wake-frequency write of value 3. -/
theorem low_power_default_frequency :
    (∀ s : MPUState, set_low_power_accelerometer_only_on s =
        set_low_power_accelerometer_only_on s 3) ∧
    (Manager_init regs0).1 = none ∧
    (Manager_init regs0).2.trace =
      [Ev.start,
       Ev.rd PWR_MGMT_1 1, Ev.wr PWR_MGMT_1 1,
       Ev.rd ACCEL_CONFIG 1, Ev.wr ACCEL_CONFIG 1,
       Ev.rd REG_CONFIG 1, Ev.wr REG_CONFIG 0,
       Ev.rd PWR_MGMT_1 1, Ev.wr PWR_MGMT_1 1,
       Ev.rd PWR_MGMT_1 1, Ev.wr PWR_MGMT_1 0,
       Ev.rd PWR_MGMT_1 1, Ev.wr PWR_MGMT_1 1,
       Ev.rd PWR_MGMT_2 1, Ev.wr PWR_MGMT_2 7,
       Ev.rd PWR_MGMT_2 1, Ev.wr PWR_MGMT_2 3] ∧
    (writesOf (Manager_init regs0).2.trace).getLast? =
      some (PWR_MGMT_2, 3) := by
  exact ⟨fun s => rfl, by decide, by decide, by decide⟩
